import Mathlib

/-!
# Verification of the media-acquisition workflow

Shallow embedding of the acquisition workflow of
`src/launchers/audio-analyzer/start_scripts/PYTHON_SCRIPTS/SCRIPTS_PYTHON/OLD_PYTHON/youtube_downloader_PYFFMPEG.py`:
the spinner (Progress Coordinator), the format-fallback loops of
`download_video` and `download_video_protools` (Format Negotiator plus
Acquisition Driver), and `download_audio`.

Modelling conventions:
* Python exceptions raised by the external `yt_dlp` service call are the type
  `PyExc`: the constructor `downloadError` is `yt_dlp.utils.DownloadError`
  (the channel on which the service reports format/media-unavailable
  failures, per the external-interface contract), and `otherException` is
  every other subclass of `Exception`.
* A call to `ydl.download([url])` is observed through `AttemptResult`:
  it either returns normally (`ok`) or raises a `PyExc`.
* The terminal is modelled as a list of printed lines (ANSI colour codes,
  carriage returns and trailing padding of the source strings are elided;
  the visible text is kept verbatim).
* The global spinner state (`spinner_running`, `spinner_thread`) is the
  structure `SpinnerState`; `renderers` counts live `_spinner_loop`
  threads (a started thread terminates when `stop_spinner` clears the flag
  and joins it).
-/

namespace YTDL

/-- A Python exception raised by the external extraction/transcoding call:
`yt_dlp.utils.DownloadError` with its message, or any other subclass of
`Exception` with its message. -/
inductive PyExc where
  | downloadError (msg : String)
  | otherException (msg : String)
deriving DecidableEq, Repr

/-- `str(e)` of an exception. -/
def PyExc.message : PyExc → String
  | .downloadError m => m
  | .otherException m => m

/-- Observable result of one `ydl.download([url])` call inside a `try` block:
normal return, or an exception raised. -/
inductive AttemptResult where
  | ok
  | raised (e : PyExc)
deriving DecidableEq, Repr

/-- The spec data model `AcquisitionOutcome`:
Success, RecoverableFailure(reason) or UnrecoverableFailure(reason). -/
inductive AcquisitionOutcome where
  | Success
  | RecoverableFailure (reason : String)
  | UnrecoverableFailure (reason : String)
deriving DecidableEq, Repr

/-- The Acquisition Driver classification, embedded from the except-clause
structure of `download_video` / `download_video_protools` (lines 189-194 and
231-236): `except yt_dlp.utils.DownloadError` logs and continues the loop
(a recoverable failure); the following `except Exception` reports and
returns (an unrecoverable failure). -/
def classify : PyExc → AcquisitionOutcome
  | .downloadError r => .RecoverableFailure r
  | .otherException r => .UnrecoverableFailure r

/-! ## Progress Coordinator (spinner), lines 39-70 -/

/-- The process-wide spinner state: the global flag `spinner_running`, the
number of live `_spinner_loop` renderer threads, and the lines the spinner
machinery has printed. -/
structure SpinnerState where
  spinner_running : Bool
  renderers : Nat
  output : List String
deriving DecidableEq, Repr

/-- The Idle coordinator state: flag clear, no renderer thread, nothing
printed. -/
def idleSpinner : SpinnerState := ⟨false, 0, []⟩

/-- The success-indicator line printed by `stop_spinner` (line 70; colour
codes and trailing padding elided). -/
def feshowMsg : String := "✔ FESHOW!!!"

/-- `start_spinner` (lines 53-59): if `spinner_running` then return,
else set the flag and start one `_spinner_loop` thread. -/
def start_spinner (s : SpinnerState) : SpinnerState :=
  if s.spinner_running then s
  else { spinner_running := true, renderers := s.renderers + 1, output := s.output }

/-- `stop_spinner` (lines 62-70): if not `spinner_running` then return,
else clear the flag, join the renderer thread (which terminates its loop once
the flag is clear), and print the success indicator. -/
def stop_spinner (s : SpinnerState) : SpinnerState :=
  if s.spinner_running then
    { spinner_running := false, renderers := s.renderers - 1,
      output := s.output ++ [feshowMsg] }
  else s

/-- `post_hook_spinner` (lines 252-256): the postprocessor hook reads
`d` at key `status` (modelled as the string itself, the only field read):
`started` calls `start_spinner`, `finished` calls `stop_spinner`, and any
other status falls through the `if`/`elif` with no effect. -/
def post_hook_spinner (s : SpinnerState) (status : String) : SpinnerState :=
  if status = "started" then start_spinner s
  else if status = "finished" then stop_spinner s
  else s

/-- `print_progress` (lines 242-249): the download progress hook only
prints; it never touches the spinner state. Returns the printed lines. -/
def print_progress (status percentStr speedStr etaStr : String) : List String :=
  if status = "downloading" then
    ["Baixando: " ++ percentStr ++ " a " ++ speedStr ++ ", ETA: " ++ etaStr]
  else if status = "finished" then
    ["Download finalizado. Iniciando pós-processamento…"]
  else []

/-! ## download_audio, lines 137-162 -/

/-- One observable behaviour of the external service during a
`download_audio` call: the `status` values it delivers to the postprocessor
hook while running, and how the `ydl.download` call ends. An exception
raised mid-operation truncates the event stream: only the events actually
delivered before the raise appear in `ppEvents`. -/
structure ServiceBeh where
  ppEvents : List String
  result : AttemptResult
deriving DecidableEq, Repr

/-- `download_audio` (lines 137-162): prints the banner, runs the service
call (whose postprocessor-hook events drive the spinner via
`post_hook_spinner`), prints the success line on normal return, and on any
`Exception` prints the error line and returns normally. There is no
`finally`: the except branch does not call `stop_spinner`. Returns the final
spinner state and the lines printed by `download_audio` itself. -/
def download_audio (beh : ServiceBeh) (s : SpinnerState) :
    SpinnerState × List String :=
  let s1 := beh.ppEvents.foldl post_hook_spinner s
  match beh.result with
  | .ok => (s1, ["⏳ Baixando áudio...", "✅ Download de áudio concluído!"])
  | .raised e =>
      (s1, ["⏳ Baixando áudio...",
            "❌ Erro durante o download de áudio: " ++ e.message])

/-! ## download_video, lines 164-195 -/

/-- Terminal outcome of a fallback loop: success return at the given format,
early return on an unexpected (non-DownloadError) exception at the given
format, or falling off the loop with the plan exhausted. -/
inductive VideoOutcome where
  | completed (fmt : String)
  | unexpectedError (fmt : String) (reason : String)
  | exhausted
deriving DecidableEq, Repr

/-- Trace of one run of a fallback loop: which format selectors were
attempted (in order), every line printed, and the terminal outcome. -/
structure NegotiationTrace where
  executed : List String
  output : List String
  outcome : VideoOutcome
deriving DecidableEq, Repr

/-- Line printed at the top of each `download_video` iteration (line 183). -/
def tryingMsg (fmt : String) : String := "⏳ Tentando formato: " ++ fmt

/-- Line printed when an attempt raises `DownloadError` (line 190). -/
def failMsg (reason : String) : String := "⚠️ Falhou: " ++ reason

/-- Line printed when an attempt raises any other exception (lines 193 and
235). -/
def unexpectedMsg (reason : String) : String := "❌ Erro inesperado: " ++ reason

/-- Success line of `download_video` (line 187). -/
def videoDoneMsg : String := "✅ Download de vídeo concluído!"

/-- Exhaustion line of `download_video` (line 195). -/
def exhaustMsg : String :=
  "❌ Não foi possível baixar o vídeo em nenhum formato suportado."

/-- The `for fmt in format_attempts` loop of `download_video`
(lines 173-195), over an arbitrary remaining plan. `exec` gives the result
of the `ydl.download` call for each format selector. On `ok`: print success
and return. On `DownloadError`: print the failure and continue. On any other
`Exception`: print the unexpected-error line and return. Off the end of the
loop: print the exhaustion line. -/
def download_video_go (exec : String → AttemptResult) :
    List String → NegotiationTrace
  | [] => ⟨[], [exhaustMsg], .exhausted⟩
  | fmt :: rest =>
    match exec fmt with
    | .ok => ⟨[fmt], [tryingMsg fmt, videoDoneMsg], .completed fmt⟩
    | .raised (.downloadError r) =>
        let t := download_video_go exec rest
        ⟨fmt :: t.executed, tryingMsg fmt :: failMsg r :: t.output, t.outcome⟩
    | .raised (.otherException r) =>
        ⟨[fmt], [tryingMsg fmt, unexpectedMsg r], .unexpectedError fmt r⟩

/-- The fixed FormatPlan of `download_video` (lines 167-171). -/
def format_attempts : List String :=
  ["bv*[vcodec^=avc1][ext=mp4]+ba[ext=m4a]/b[ext=mp4]/best",
   "bestvideo[ext=mp4]+bestaudio[ext=m4a]/best[ext=mp4]/best",
   "bestvideo+bestaudio/best"]

/-- `download_video` (lines 164-195): the fallback loop run on its fixed
plan. -/
def download_video (exec : String → AttemptResult) : NegotiationTrace :=
  download_video_go exec format_attempts

/-! ## download_video_protools, lines 197-237 -/

/-- Line printed at the top of each `download_video_protools` iteration
(line 225). -/
def tryingMsgPT (fmt : String) : String := "⏳ Formato PT: " ++ fmt

/-- Line printed when a Pro Tools attempt raises `DownloadError` (line 232;
it names the format selector as well as the reason; the quote characters of
the source f-string are elided). -/
def failMsgPT (fmt reason : String) : String :=
  "⚠️ Falhou formato " ++ fmt ++ ": " ++ reason

/-- Success line of `download_video_protools` (line 229). -/
def ptDoneMsg : String := "✅ Vídeo PT concluído!"

/-- Exhaustion line of `download_video_protools` (line 237). -/
def exhaustMsgPT : String :=
  "❌ Não foi possível baixar/convertê-lo para Pro Tools."

/-- The `for fmt in base_formats` loop of `download_video_protools`
(lines 206-237), over an arbitrary remaining plan; same control flow as
`download_video_go` with the Pro Tools messages. -/
def download_video_protools_go (exec : String → AttemptResult) :
    List String → NegotiationTrace
  | [] => ⟨[], [exhaustMsgPT], .exhausted⟩
  | fmt :: rest =>
    match exec fmt with
    | .ok => ⟨[fmt], [tryingMsgPT fmt, ptDoneMsg], .completed fmt⟩
    | .raised (.downloadError r) =>
        let t := download_video_protools_go exec rest
        ⟨fmt :: t.executed, tryingMsgPT fmt :: failMsgPT fmt r :: t.output,
         t.outcome⟩
    | .raised (.otherException r) =>
        ⟨[fmt], [tryingMsgPT fmt, unexpectedMsg r], .unexpectedError fmt r⟩

/-- The fixed FormatPlan of `download_video_protools` (lines 200-204). -/
def base_formats : List String :=
  ["bv*[vcodec^=avc1][ext=mp4][height<=1080]+ba[ext=m4a]",
   "bestvideo[ext=mp4]+bestaudio[ext=m4a]",
   "best"]

/-- `download_video_protools` (lines 197-237): the Pro Tools fallback loop
run on its fixed plan. -/
def download_video_protools (exec : String → AttemptResult) : NegotiationTrace :=
  download_video_protools_go exec base_formats

/-- The per-attempt report line `download_video` prints when the attempt
raises the given exception (lines 190 and 193). -/
def reportLine : PyExc → String
  | .downloadError m => failMsg m
  | .otherException m => unexpectedMsg m

/-- The per-attempt report line `download_video_protools` prints when the
attempt raises the given exception (lines 232 and 235). -/
def reportLinePT (fmt : String) : PyExc → String
  | .downloadError m => failMsgPT fmt m
  | .otherException m => unexpectedMsg m

/-! ## Theorems -/

/-- C7: Progress Coordinator start and stop are idempotent. Calling
`start_spinner` while Running is a no-op; two consecutive `start_spinner`
calls from Idle leave exactly one active renderer thread (the second call is
absorbed); calling `stop_spinner` while Idle is a no-op: it neither errors
nor prints anything and the state is unchanged. -/
theorem spinner_start_stop_idempotent (s t : SpinnerState)
    (hs : s.spinner_running = false) (hr : s.renderers = 0)
    (ht : t.spinner_running = true) :
    start_spinner t = t ∧
    start_spinner (start_spinner s) = start_spinner s ∧
    (start_spinner (start_spinner s)).renderers = 1 ∧
    stop_spinner s = s := by
  simp [start_spinner, stop_spinner, hs, hr, ht]

/-- Witness for C7 at the Idle state and a concrete Running state. -/
theorem spinner_start_stop_idempotent_witness :
    start_spinner ⟨true, 1, []⟩ = (⟨true, 1, []⟩ : SpinnerState) ∧
    start_spinner (start_spinner idleSpinner) = start_spinner idleSpinner ∧
    (start_spinner (start_spinner idleSpinner)).renderers = 1 ∧
    stop_spinner idleSpinner = idleSpinner :=
  spinner_start_stop_idempotent idleSpinner ⟨true, 1, []⟩ rfl rfl rfl

/-- C8 counterexample: a `Progressing` event (postprocessor-hook status
`processing`) arriving at the Idle coordinator with no prior `Started` is
NOT treated as an implicit `start()`: `post_hook_spinner` ignores it and the
coordinator stays Idle (`spinner_running` remains `false`), contrary to the
claim that it would be Running afterwards. -/
theorem progressing_without_started_not_implicit_start :
    post_hook_spinner ⟨false, 0, []⟩ "processing" = (⟨false, 0, []⟩ : SpinnerState) ∧
    (post_hook_spinner ⟨false, 0, []⟩ "processing").spinner_running = false := by
  decide

/-- C8 amended: any hook event whose status is neither `started` nor
`finished` — in particular a `Progressing` event with no prior `Started` —
is tolerated (processed without error) but ignored: the coordinator state is
completely unchanged, so from Idle it stays Idle rather than becoming
Running. -/
theorem progressing_event_ignored (s : SpinnerState) (status : String)
    (h1 : status ≠ "started") (h2 : status ≠ "finished") :
    post_hook_spinner s status = s := by
  simp [post_hook_spinner, h1, h2]

/-- Witness for the amended C8 at a concrete Idle state and the
`processing` status. -/
theorem progressing_event_ignored_witness :
    post_hook_spinner idleSpinner "processing" = idleSpinner :=
  progressing_event_ignored idleSpinner "processing" (by decide) (by decide)

/-- C9: whenever `stop_spinner` is called in the Running state it
unconditionally appends the fixed success-indicator line `✔ FESHOW!!!` to
the terminal output and returns to Idle. `stop_spinner` takes no information
about the enclosing operation's outcome, so the printed completion mark is
the same whether the operation succeeded or failed. -/
theorem stop_prints_feshow_unconditionally (s : SpinnerState)
    (h : s.spinner_running = true) :
    (stop_spinner s).output = s.output ++ [feshowMsg] ∧
    (stop_spinner s).spinner_running = false := by
  simp [stop_spinner, h]

/-- Witness for C9 at a concrete Running state. -/
theorem stop_prints_feshow_unconditionally_witness :
    (stop_spinner ⟨true, 1, ["x"]⟩).output = ["x"] ++ [feshowMsg] ∧
    (stop_spinner ⟨true, 1, ["x"]⟩).spinner_running = false :=
  stop_prints_feshow_unconditionally ⟨true, 1, ["x"]⟩ rfl

/-- C1 failing input, evaluated: the service delivers the postprocessor-hook
event `started` (the spinner starts) and then raises an `Exception` before
delivering `finished`. `download_audio` catches the exception, prints the
error report and returns normally — but `stop_spinner` is never invoked
(there is no `finally` and the except branch does not stop the spinner), so
after control returns to the caller the coordinator is still Running with a
live background renderer thread, contradicting the claimed Idle guarantee. -/
theorem dangling_spinner_after_midoperation_exception :
    (download_audio ⟨["started"], .raised (.otherException "ffmpeg crashed")⟩
        idleSpinner).1.spinner_running = true ∧
    (download_audio ⟨["started"], .raised (.otherException "ffmpeg crashed")⟩
        idleSpinner).1.renderers = 1 ∧
    (download_audio ⟨["started"], .raised (.otherException "ffmpeg crashed")⟩
        idleSpinner).2 =
      ["⏳ Baixando áudio...",
       "❌ Erro durante o download de áudio: ffmpeg crashed"] := by
  decide

/-- C2: the Acquisition Driver classification. A `DownloadError` — the
channel on which the extraction service reports format/media-unavailable
failures (selector rejected, no matching stream) — is classified as
`RecoverableFailure` and makes the fallback loop advance to the next
attempt, while any other `Exception` (network, permission, invalid URL,
engine crash) is classified as `UnrecoverableFailure` and aborts the loop
without executing any further attempt, in both `download_video` and
`download_video_protools`. -/
theorem driver_failure_classification (r : String)
    (exec : String → AttemptResult) (fmt : String) (rest : List String) :
    classify (.downloadError r) = .RecoverableFailure r ∧
    classify (.otherException r) = .UnrecoverableFailure r ∧
    (exec fmt = .raised (.downloadError r) →
      (download_video_go exec (fmt :: rest)).executed
          = fmt :: (download_video_go exec rest).executed ∧
      (download_video_go exec (fmt :: rest)).outcome
          = (download_video_go exec rest).outcome) ∧
    (exec fmt = .raised (.otherException r) →
      (download_video_go exec (fmt :: rest)).executed = [fmt] ∧
      (download_video_go exec (fmt :: rest)).outcome = .unexpectedError fmt r) ∧
    (exec fmt = .raised (.downloadError r) →
      (download_video_protools_go exec (fmt :: rest)).executed
          = fmt :: (download_video_protools_go exec rest).executed ∧
      (download_video_protools_go exec (fmt :: rest)).outcome
          = (download_video_protools_go exec rest).outcome) ∧
    (exec fmt = .raised (.otherException r) →
      (download_video_protools_go exec (fmt :: rest)).executed = [fmt] ∧
      (download_video_protools_go exec (fmt :: rest)).outcome
          = .unexpectedError fmt r) := by
  refine ⟨rfl, rfl, ?_, ?_, ?_, ?_⟩ <;> intro h <;>
    simp [download_video_go, download_video_protools_go, h]

/-- Concrete service used by the C2 witness: the first selector hits a
format-unavailable error, everything else succeeds. -/
def execW1 : String → AttemptResult := fun f =>
  if f = "FMTA" then .raised (.downloadError "no stream") else .ok

/-- Witness for C2: the recoverable branch at a concrete input. -/
theorem driver_failure_classification_witness :
    (download_video_go execW1 ["FMTA", "FMTB"]).executed
        = "FMTA" :: (download_video_go execW1 ["FMTB"]).executed ∧
    (download_video_go execW1 ["FMTA", "FMTB"]).outcome
        = (download_video_go execW1 ["FMTB"]).outcome :=
  (driver_failure_classification "no stream" execW1 "FMTA" ["FMTB"]).2.2.1
    (by decide)

/-- C3: negotiation short-circuits on the first successful attempt. If every
attempt before position `k` recoverably fails (so the loop reaches attempt
`k`) and attempt `k` returns successfully, then exactly the attempts up to
and including `k` are executed — none of the later attempts runs — and the
overall outcome is success attributed to attempt `k`. -/
theorem negotiation_short_circuits_on_success (exec : String → AttemptResult)
    (pre : List String) (fmt : String) (post : List String)
    (hpre : ∀ f ∈ pre, ∃ r, exec f = .raised (.downloadError r))
    (hfmt : exec fmt = .ok) :
    (download_video_go exec (pre ++ fmt :: post)).executed = pre ++ [fmt] ∧
    (download_video_go exec (pre ++ fmt :: post)).outcome = .completed fmt := by
  induction pre with
  | nil => simp [download_video_go, hfmt]
  | cons f fs ih =>
    obtain ⟨r, hr⟩ := hpre f (List.mem_cons_self f fs)
    have h2 := ih (fun g hg => hpre g (List.mem_cons_of_mem f hg))
    simp [download_video_go, hr, h2.1, h2.2]

/-- Concrete service used by the C3 witness: attempt `B` succeeds, the other
selectors hit format-unavailable errors. -/
def execW2 : String → AttemptResult := fun f =>
  if f = "B" then .ok else .raised (.downloadError "format unavailable")

/-- Witness for C3 on a three-attempt plan whose second attempt succeeds:
the third attempt is never executed. -/
theorem negotiation_short_circuits_on_success_witness :
    (download_video_go execW2 ["A", "B", "C"]).executed = ["A", "B"] ∧
    (download_video_go execW2 ["A", "B", "C"]).outcome = .completed "B" :=
  negotiation_short_circuits_on_success execW2 ["A"] "B" ["C"]
    (by intro f hf; simp only [List.mem_singleton] at hf; subst hf
        exact ⟨"format unavailable", by decide⟩)
    (by decide)

/-- C4: negotiation continues past recoverable failures in plan order. If
the attempts before `fmt` each raise a `DownloadError` and `fmt` then
succeeds, all those attempts plus `fmt` are executed in plan order, each
failing attempt is logged — its selector in the trying line immediately
followed by the failure line carrying its reason — and the final outcome is
success attributed to `fmt`. -/
theorem negotiation_advances_past_recoverable (exec : String → AttemptResult)
    (pre : List String) (fmt : String) (post : List String)
    (rf : String → String)
    (hpre : ∀ f ∈ pre, exec f = .raised (.downloadError (rf f)))
    (hfmt : exec fmt = .ok) :
    (download_video_go exec (pre ++ fmt :: post)).executed = pre ++ [fmt] ∧
    (download_video_go exec (pre ++ fmt :: post)).output
        = pre.foldr (fun f acc => tryingMsg f :: failMsg (rf f) :: acc)
            [tryingMsg fmt, videoDoneMsg] ∧
    (download_video_go exec (pre ++ fmt :: post)).outcome = .completed fmt := by
  induction pre with
  | nil => simp [download_video_go, hfmt]
  | cons f fs ih =>
    have hr := hpre f (List.mem_cons_self f fs)
    have h2 := ih (fun g hg => hpre g (List.mem_cons_of_mem f hg))
    simp [download_video_go, hr, h2.1, h2.2.1, h2.2.2]

/-- Concrete service used by the C4 witness: attempts `A1` and `A2`
recoverably fail with distinct reasons, attempt `A3` succeeds. -/
def execW4 : String → AttemptResult := fun f =>
  if f = "A3" then .ok else .raised (.downloadError ("r" ++ f))

/-- Witness for C4 on a three-attempt plan whose first two attempts
recoverably fail: all three run in order, both failures are logged, and the
outcome is success at the third. -/
theorem negotiation_advances_past_recoverable_witness :
    (download_video_go execW4 ["A1", "A2", "A3"]).executed = ["A1", "A2", "A3"] ∧
    (download_video_go execW4 ["A1", "A2", "A3"]).output
        = [tryingMsg "A1", failMsg "rA1", tryingMsg "A2", failMsg "rA2",
           tryingMsg "A3", videoDoneMsg] ∧
    (download_video_go execW4 ["A1", "A2", "A3"]).outcome = .completed "A3" :=
  negotiation_advances_past_recoverable execW4 ["A1", "A2"] "A3" []
    (fun f => "r" ++ f)
    (by intro f hf; fin_cases hf <;> decide)
    (by decide)

/-- C5: negotiation aborts on an unrecoverable failure. If the loop reaches
attempt `fmt` (every earlier attempt raised a `DownloadError`) and `fmt`
raises any other `Exception` with detail `r`, then no attempt after `fmt` is
executed, the outcome is the unexpected-error abort at `fmt`, and the line
reported to the user is the unexpected-error message carrying the original
error detail `r` verbatim. -/
theorem negotiation_aborts_on_unrecoverable (exec : String → AttemptResult)
    (pre : List String) (fmt : String) (post : List String)
    (rf : String → String) (r : String)
    (hpre : ∀ f ∈ pre, exec f = .raised (.downloadError (rf f)))
    (hfmt : exec fmt = .raised (.otherException r)) :
    (download_video_go exec (pre ++ fmt :: post)).executed = pre ++ [fmt] ∧
    (download_video_go exec (pre ++ fmt :: post)).outcome
        = .unexpectedError fmt r ∧
    (download_video_go exec (pre ++ fmt :: post)).output
        = pre.foldr (fun f acc => tryingMsg f :: failMsg (rf f) :: acc)
            [tryingMsg fmt, unexpectedMsg r] ∧
    unexpectedMsg r = "❌ Erro inesperado: " ++ r := by
  induction pre with
  | nil => simp [download_video_go, hfmt, unexpectedMsg]
  | cons f fs ih =>
    have hr := hpre f (List.mem_cons_self f fs)
    have h2 := ih (fun g hg => hpre g (List.mem_cons_of_mem f hg))
    simp [download_video_go, hr, h2.1, h2.2.1, h2.2.2.1, unexpectedMsg]

/-- Concrete service used by the C5 witness: the very first attempt raises a
non-DownloadError exception. -/
def execW5 : String → AttemptResult := fun _ =>
  .raised (.otherException "network unreachable")

/-- Witness for C5 on a three-attempt plan whose first attempt
unrecoverably fails: attempts two and three are never executed and the
report names the original reason. -/
theorem negotiation_aborts_on_unrecoverable_witness :
    (download_video_go execW5 ["B1", "B2", "B3"]).executed = ["B1"] ∧
    (download_video_go execW5 ["B1", "B2", "B3"]).outcome
        = .unexpectedError "B1" "network unreachable" ∧
    (download_video_go execW5 ["B1", "B2", "B3"]).output
        = [tryingMsg "B1", unexpectedMsg "network unreachable"] ∧
    unexpectedMsg "network unreachable"
        = "❌ Erro inesperado: " ++ "network unreachable" :=
  negotiation_aborts_on_unrecoverable execW5 [] "B1" ["B2", "B3"]
    (fun f => f) "network unreachable"
    (by intro f hf; simp at hf)
    (by decide)

/-- Concrete service used for C6: every attempt recoverably fails, with a
reason derived from the selector. -/
def execW6 : String → AttemptResult := fun f =>
  .raised (.downloadError ("reason-" ++ f))

/-- C6 counterexample: run `download_video_go` on the plan
`["SEL1", "SEL2"]` where both attempts recoverably fail. The plan is
exhausted, and the aggregate exhaustion line actually reported is the fixed
message, which contains neither the selector `SEL1` nor its failure reason
`reason-SEL1` as a substring (not an infix of its character sequence) — so
the aggregate exhaustion failure does not name the attempted selectors or
their reasons, contrary to the claim. -/
theorem exhaustion_report_names_nothing :
    (download_video_go execW6 ["SEL1", "SEL2"]).outcome = .exhausted ∧
    (download_video_go execW6 ["SEL1", "SEL2"]).output.getLast? = some exhaustMsg ∧
    ¬ "SEL1".toList <:+: exhaustMsg.toList ∧
    ¬ "reason-SEL1".toList <:+: exhaustMsg.toList := by
  refine ⟨by decide, by decide, ?_, ?_⟩ <;> decide

/-- C6 amended: when every attempt of a plan recoverably fails, the loop
exhausts the plan; each attempt's selector and its individual failure
reason are printed per attempt as the failures occur (the selector in the
trying line followed by the failure line carrying the reason — in the Pro
Tools variant the failure line itself also names the selector), and the
final aggregate exhaustion line is a fixed message, the same for every plan,
naming neither the selectors nor the reasons. -/
theorem plan_exhaustion_report (exec : String → AttemptResult)
    (plan : List String) (rf : String → String)
    (hplan : ∀ f ∈ plan, exec f = .raised (.downloadError (rf f))) :
    (download_video_go exec plan).outcome = .exhausted ∧
    (download_video_go exec plan).output
        = plan.foldr (fun f acc => tryingMsg f :: failMsg (rf f) :: acc)
            [exhaustMsg] ∧
    (download_video_protools_go exec plan).outcome = .exhausted ∧
    (download_video_protools_go exec plan).output
        = plan.foldr (fun f acc => tryingMsgPT f :: failMsgPT f (rf f) :: acc)
            [exhaustMsgPT] := by
  induction plan with
  | nil => simp [download_video_go, download_video_protools_go]
  | cons f fs ih =>
    have hr := hplan f (List.mem_cons_self f fs)
    have h2 := ih (fun g hg => hplan g (List.mem_cons_of_mem f hg))
    simp [download_video_go, download_video_protools_go, hr,
      h2.1, h2.2.1, h2.2.2.1, h2.2.2.2]

/-- Witness for the amended C6 on a concrete two-attempt plan. -/
theorem plan_exhaustion_report_witness :
    (download_video_go execW6 ["S1", "S2"]).outcome = .exhausted ∧
    (download_video_go execW6 ["S1", "S2"]).output
        = [tryingMsg "S1", failMsg "reason-S1", tryingMsg "S2",
           failMsg "reason-S2", exhaustMsg] ∧
    (download_video_protools_go execW6 ["S1", "S2"]).outcome = .exhausted ∧
    (download_video_protools_go execW6 ["S1", "S2"]).output
        = [tryingMsgPT "S1", failMsgPT "S1" "reason-S1", tryingMsgPT "S2",
           failMsgPT "S2" "reason-S2", exhaustMsgPT] :=
  plan_exhaustion_report execW6 ["S1", "S2"] (fun f => "reason-" ++ f)
    (by intro f hf; fin_cases hf <;> decide)

/-- C10: the top-level download operations are total with respect to service
errors. For every `Exception` `e` raised by the external call,
`download_audio` catches it and prints the audio error report carrying
`str(e)`, and the `download_video` / `download_video_protools` loops catch
it in the attempt where it is raised and print the corresponding report line
(the recoverable-failure line for a `DownloadError`, the unexpected-error
line otherwise). All three are embedded as total functions returning plain
traces: every behaviour, including every raised exception, yields a normal
return — no exception propagates to the caller. -/
theorem downloads_catch_all_service_exceptions (e : PyExc) (beh : ServiceBeh)
    (s : SpinnerState) (exec : String → AttemptResult) (fmt : String)
    (rest : List String)
    (hb : beh.result = .raised e) (hx : exec fmt = .raised e) :
    (download_audio beh s).2
        = ["⏳ Baixando áudio...",
           "❌ Erro durante o download de áudio: " ++ e.message] ∧
    reportLine e ∈ (download_video_go exec (fmt :: rest)).output ∧
    reportLinePT fmt e ∈ (download_video_protools_go exec (fmt :: rest)).output := by
  refine ⟨by simp [download_audio, hb], ?_, ?_⟩ <;> cases e with
  | downloadError m =>
      simp [download_video_go, download_video_protools_go, hx,
        reportLine, reportLinePT]
  | otherException m =>
      simp [download_video_go, download_video_protools_go, hx,
        reportLine, reportLinePT]

/-- Concrete service used by the C10 witness: the call raises a
non-DownloadError exception. -/
def execW10 : String → AttemptResult := fun _ =>
  .raised (.otherException "network down")

/-- Witness for C10 at a concrete exception and plan. -/
theorem downloads_catch_all_service_exceptions_witness :
    (download_audio ⟨[], .raised (.otherException "network down")⟩
        idleSpinner).2
        = ["⏳ Baixando áudio...",
           "❌ Erro durante o download de áudio: "
              ++ (PyExc.otherException "network down").message] ∧
    reportLine (.otherException "network down")
        ∈ (download_video_go execW10 ["F1"]).output ∧
    reportLinePT "F1" (.otherException "network down")
        ∈ (download_video_protools_go execW10 ["F1"]).output :=
  downloads_catch_all_service_exceptions (.otherException "network down")
    ⟨[], .raised (.otherException "network down")⟩ idleSpinner execW10 "F1" []
    rfl rfl

end YTDL
